import Mathlib

/-!
Verification development for the `perontips_fliers_backend` repository.

The repository is a small Express/Node.js payment backend with several
near-duplicate `server.js` variants.  The shared mutable state is a single
in-memory array `logs` of transaction records, plus a cached OAuth token
(`accessTokenCache`, `tokenExpiryTime`).  The definitions below are a shallow
embedding of the JavaScript source:

* JS numbers used for amounts are modelled as `ℚ` (JS floats are a subset of
  the rationals); the `NaN`/missing cases of `Number(amount)` are modelled by
  a dedicated input type `JsVal`.
* Times (`Date.now()` milliseconds) are modelled as `ℤ` and passed explicitly
  to the functions that read the clock.
* A JS object field that is sometimes absent and sometimes `null` is modelled
  as a single `Option`: every read-side projection in the source conflates the
  two (`found.mpesaReceipt || null`, `found.expiry || null`), so they are not
  observably distinct.
* Network calls (`axios`) are modelled by passing the call's outcome
  (`Except`) as an explicit argument.
-/

/-- One element of `CallbackMetadata.Item` in a Daraja STK callback.
`value` is `none` when the JS `Value` field is absent. -/
structure CItem where
  name : String
  value : Option String
deriving DecidableEq, Repr

/-- The `Body.stkCallback` envelope of a Daraja callback, restricted to the
fields the handlers read: `CheckoutRequestID`, `ResultCode`, `ResultDesc`,
and `CallbackMetadata.Item`. -/
structure StkCallback where
  checkoutRequestID : String
  resultCode : Int
  resultDesc : Option String
  items : List CItem
deriving DecidableEq, Repr

/-- The part of the synchronous Daraja STK-push response the handlers read
(`darajaResponse.data.CheckoutRequestID`). -/
structure GwResp where
  checkoutRequestID : Option String
deriving DecidableEq, Repr

/-- The `details` field of a log entry: the raw gateway response for records
created at initiation time, and the raw callback for orphan records. -/
inductive RecDetails where
  | noneD : RecDetails
  | gw (r : GwResp) : RecDetails
  | callbackData (c : StkCallback) : RecDetails
deriving DecidableEq, Repr

/-- A record of the in-memory `logs` array.  Fields that the JS code adds
later (`mpesaReceipt`, `resultDesc`, `expiry`) are `Option`s, `none` meaning
absent-or-null (the two are conflated by every observable projection in the
source). -/
structure LogEntry where
  phone : String
  amount : Option ℚ
  status : String
  timestamp : String
  checkoutId : Option String
  details : RecDetails
  mpesaReceipt : Option String
  resultDesc : Option String
  expiry : Option Int
deriving DecidableEq, Repr

/-! ### Phone normalizer — `normalizePhone` in `src/unnamed/part_001` -/

/-- Characters removed by the replace step of `normalizePhone`: whitespace,
plus signs and hyphens. -/
def isStripped (c : Char) : Bool := c.isWhitespace || c = '+' || c = '-'

/-- The replace step of `normalizePhone`: strip whitespace, plus and hyphen. -/
def cleanPhone (s : String) : String := String.mk (s.data.filter (fun c => !(isStripped c)))

def isDigits (l : List Char) : Bool := l.all Char.isDigit

/-- The regex test `/^07\d{8}$/`. -/
def matches07 (s : String) : Bool :=
  match s.data with
  | '0' :: '7' :: rest => rest.length = 8 && isDigits rest
  | _ => false

/-- The regex test `/^7\d{8}$/`. -/
def matches7 (s : String) : Bool :=
  match s.data with
  | '7' :: rest => rest.length = 8 && isDigits rest
  | _ => false

/-- The regex test `/^2547\d{8}$/`. -/
def matches2547 (s : String) : Bool :=
  match s.data with
  | '2' :: '5' :: '4' :: '7' :: rest => rest.length = 8 && isDigits rest
  | _ => false

/-- `normalizePhone` from `src/unnamed/part_001` lines 105–116.  A `none`
input models a missing or non-string argument; an empty string is falsy in JS
and also yields `null`.  Note the final fallback returns the cleaned string
unchanged (the source comment says "if it looks numeric" but no such check is
performed). -/
def normalizePhone : Option String → Option String
  | none => none
  | some p =>
    if p = "" then none
    else
      let cleaned := cleanPhone p
      if matches07 cleaned then some cleaned
      else if matches7 cleaned then some ("0" ++ cleaned)
      else if matches2547 cleaned then some cleaned
      else some cleaned

/-! ### Amount validation — the `/pay` handler in `src/unnamed/part_001` -/

/-- The result of `Number(amount)` on the request body: the field may be
missing (`undefined`/`null`), a non-numeric value (`NaN` after coercion), or
a real JS number, modelled as a rational. -/
inductive JsVal where
  | missing : JsVal
  | nan : JsVal
  | num (q : ℚ) : JsVal
deriving DecidableEq, Repr

inductive AmountErr where
  | amountRequired : AmountErr
  | invalidAmount : AmountErr
  | amountExceedsLimit : AmountErr
deriving DecidableEq, Repr

/-- `const MAX_AMOUNT = 30` in the `/pay` handler. -/
def MAX_AMOUNT : ℚ := 30

/-- The amount checks of `/pay` (`src/unnamed/part_001` lines 133–146):
missing amount, then `Number.isNaN(numericAmount) || numericAmount <= 0`,
then `numericAmount > MAX_AMOUNT`. -/
def validateAmount : JsVal → Except AmountErr ℚ
  | .missing => .error .amountRequired
  | .nan => .error .invalidAmount
  | .num q =>
    if q ≤ 0 then .error .invalidAmount
    else if q > MAX_AMOUNT then .error .amountExceedsLimit
    else .ok q

/-! ### Transaction Ledger — the `logs` array and its handlers -/

/-- JS truthiness filter used by `callback.ResultDesc || null` and
`callback.ResultDesc || fallback`: the empty string is falsy. -/
def presentStr : Option String → Option String
  | none => none
  | some v => if v = "" then none else some v

/-- `items.find(i => i.Name === 'MpesaReceiptNumber')` followed by
`receiptItem?.Value || null`: the receipt value of a callback, `none` when the
item is missing, its `Value` absent, or empty (falsy). -/
def extractReceipt (items : List CItem) : Option String :=
  match items.find? (fun i => i.name = "MpesaReceiptNumber") with
  | none => none
  | some it => presentStr it.value

/-- The predicate of `logs.findIndex(l => l.checkoutId === checkoutId)` (and
of `logs.find` in the status endpoint). -/
def hasCheckoutId (cid : String) (l : LogEntry) : Bool :=
  decide (l.checkoutId = some cid)

/-- The in-place update the `/callback` handler of `src/unnamed/part_000`
(lines 183–188) performs on the record found at `logIndex`:
`status` becomes `'Success'` when `ResultCode === 0` and `'Failed'` otherwise,
`mpesaReceipt` and `resultDesc` are overwritten from the callback, and on
success `expiry` is set to `Date.now() + 12` hours.  `now` is the value of
`Date.now()` at delivery time. -/
def reconcileEntry (now : Int) (cb : StkCallback) (e : LogEntry) : LogEntry :=
  { e with
    status := if cb.resultCode = 0 then "Success" else "Failed"
    mpesaReceipt := extractReceipt cb.items
    resultDesc := presentStr cb.resultDesc
    expiry := if cb.resultCode = 0 then some (now + 43200000) else e.expiry }

/-- The orphan record pushed by the `/callback` handler of
`src/unnamed/part_000` (lines 191–198) when no record matches the callback's
`CheckoutRequestID`: phone `'unknown'`, null amount, `status` equal to the
callback's `ResultDesc` when present and truthy, falling back to
`'Success'`/`'Failed'`, and the raw callback preserved in `details`.
`ts` is `getTimestamp()` at delivery time. -/
def orphanEntry (ts : String) (cb : StkCallback) : LogEntry :=
  { phone := "unknown"
    amount := none
    status := match presentStr cb.resultDesc with
              | some d => d
              | none => if cb.resultCode = 0 then "Success" else "Failed"
    timestamp := ts
    checkoutId := some cb.checkoutRequestID
    details := .callbackData cb
    mpesaReceipt := none
    resultDesc := none
    expiry := none }

/-- `logs[logIndex] = f(logs[logIndex])` where
`logIndex = logs.findIndex(p)`: update the first element satisfying `p`,
leave the list unchanged when there is none. -/
def updateFirst (p : LogEntry → Bool) (f : LogEntry → LogEntry) : List LogEntry → List LogEntry
  | [] => []
  | e :: rest => if p e then f e :: rest else e :: updateFirst p f rest

/-- The `/callback` handler of `src/unnamed/part_000` (lines 177–199),
restricted to its effect on `logs` (the HTTP response is always the success
acknowledgment): find the first record whose `checkoutId` equals the
callback's `CheckoutRequestID` and overwrite its terminal fields, else append
an orphan record. -/
def reconcileLogs (now : Int) (ts : String) (cb : StkCallback) (logs : List LogEntry) :
    List LogEntry :=
  if logs.any (hasCheckoutId cb.checkoutRequestID) then
    updateFirst (hasCheckoutId cb.checkoutRequestID) (reconcileEntry now cb) logs
  else
    logs ++ [orphanEntry ts cb]

/-- `logs.find(l => l.checkoutId === checkoutId)` — the lookup used by the
`/api/mpesa/status` endpoint. -/
def findByCheckoutId (cid : String) (logs : List LogEntry) : Option LogEntry :=
  logs.find? (hasCheckoutId cid)

/-- The `logs.push` of the `/pay` handler in `src/unnamed/part_001`
(lines 180–187), executed only after the gateway has responded: append a new
`Pending` record keyed by the returned `CheckoutRequestID`. -/
def createPending (phone : String) (amount : ℚ) (ts : String) (resp : GwResp)
    (logs : List LogEntry) : List LogEntry :=
  logs ++ [{ phone := phone
             amount := some amount
             status := "Pending"
             timestamp := ts
             checkoutId := resp.checkoutRequestID
             details := .gw resp
             mpesaReceipt := none
             resultDesc := none
             expiry := none }]

/-! ### The `/pay` handler of `src/unnamed/part_001` (lines 129–199) -/

/-- The three possible shapes of the `/pay` HTTP response: a 400 validation
rejection, the catch-branch error response (status taken from
`error.response.status` with fallback 500, body `Payment initiation failed`),
or the 200 success body carrying the correlation identifier. -/
inductive PayResp where
  | clientError (msg : String) : PayResp
  | upstreamError (status : Nat) : PayResp
  | ok (checkoutId : Option String) : PayResp
deriving DecidableEq, Repr

/-- `(error.response && error.response.status) || 500`: the HTTP status of the
error response, `500` when the thrown error carries no (truthy) response
status. -/
def statusOf : Option Nat → Nat
  | some s => if s = 0 then 500 else s
  | none => 500

/-- The `/pay` handler of `src/unnamed/part_001`, with the clock reading and
the outcomes of the two network calls (`getAccessToken`, the STK push POST)
passed as explicit arguments.  A thrown error is `Except.error` carrying the
optional HTTP status of `error.response`.  The handler returns the HTTP
response together with the new `logs` array. -/
def payHandler (rawPhone : Option String) (amount : JsVal)
    (tokenResult : Except (Option Nat) String)
    (gwResult : Except (Option Nat) GwResp)
    (ts : String) (logs : List LogEntry) : PayResp × List LogEntry :=
  match validateAmount amount with
  | .error .amountRequired => (.clientError "Amount is required", logs)
  | .error .invalidAmount => (.clientError "Invalid amount", logs)
  | .error .amountExceedsLimit =>
      (.clientError "Amount exceeds maximum allowed (KES 30)", logs)
  | .ok a =>
    match normalizePhone (some (rawPhone.getD "")) with
    | none => (.clientError "Invalid phone number", logs)
    | some ph =>
      if ph = "" then (.clientError "Invalid phone number", logs)
      else
        match tokenResult with
        | .error e => (.upstreamError (statusOf e), logs)
        | .ok _ =>
          match gwResult with
          | .error e => (.upstreamError (statusOf e), logs)
          | .ok resp => (.ok resp.checkoutRequestID, createPending ph a ts resp logs)

/-! ### Status Query Service — `/status` and `/logs` of `src/unnamed/part_001` -/

/-- The three possible shapes of the `/status` response: 400 (missing or
invalid phone), 404 (no transactions), or the latest matching record. -/
inductive StatusResp where
  | badRequest : StatusResp
  | notFound : StatusResp
  | found (e : LogEntry) : StatusResp
deriving DecidableEq, Repr

/-- The `/status` handler of `src/unnamed/part_001` (lines 206–220): the query
phone is normalized with `normalizePhone`, the logs are filtered by exact
equality with the normalized value, and the last matching record is
returned. -/
def statusByPhone (phoneQuery : Option String) (logs : List LogEntry) : StatusResp :=
  match phoneQuery with
  | none => .badRequest
  | some q =>
    if q = "" then .badRequest
    else
      match normalizePhone (some q) with
      | none => .badRequest
      | some n =>
        if n = "" then .badRequest
        else
          match (logs.filter (fun l => decide (l.phone = n))).getLast? with
          | none => .notFound
          | some last => .found last

/-- The `/logs` handler of `src/unnamed/part_001` (lines 273–277): with a
(truthy) phone query the logs are filtered by equality with the normalized
phone (a `null` normalization matches nothing); otherwise all logs are
returned. -/
def listByPhone (phoneQuery : Option String) (logs : List LogEntry) : List LogEntry :=
  match phoneQuery with
  | none => logs
  | some q =>
    if q = "" then logs
    else
      match normalizePhone (some q) with
      | none => logs.filter (fun _ => false)
      | some n => logs.filter (fun l => decide (l.phone = n))

/-! ### Token Cache — `getAccessToken` in `src/server.js` (lines 29–50) -/

/-- The body of the Daraja OAuth response: the bearer token and the stated
validity window `expires_in` (seconds).  The source reads only
`access_token`; `expires_in` is carried here because the specification talks
about the gateway's stated validity window. -/
structure AuthResp where
  access_token : String
  expires_in : Int
deriving DecidableEq, Repr

/-- The module-level mutable cells `accessTokenCache` and `tokenExpiryTime`,
both initially `null`. -/
structure TokenState where
  accessTokenCache : Option String
  tokenExpiryTime : Option Int
deriving DecidableEq, Repr

instance {ε α : Type} [DecidableEq ε] [DecidableEq α] : DecidableEq (Except ε α) := fun x y =>
  match x, y with
  | .error a, .error b =>
    if h : a = b then isTrue (congrArg Except.error h)
    else isFalse (fun hh => h (by cases hh; rfl))
  | .error _, .ok _ => isFalse (fun hh => Except.noConfusion hh)
  | .ok _, .error _ => isFalse (fun hh => Except.noConfusion hh)
  | .ok a, .ok b =>
    if h : a = b then isTrue (congrArg Except.ok h)
    else isFalse (fun hh => h (by cases hh; rfl))

/-- The outcome of one `getAccessToken()` call: the returned token (or the
thrown error), the new cache state, and whether an upstream credential
exchange was performed. -/
structure TokenResult where
  result : Except Unit String
  state : TokenState
  upstreamCalled : Bool
deriving DecidableEq, Repr

/-- `accessTokenCache && tokenExpiryTime > Date.now()`: the cache-hit guard.
A `null` cache or empty-string token is falsy; `null > now` is false for the
positive clock values `Date.now()` returns (and for the `Int` model we take
the comparison to fail whenever `tokenExpiryTime` is `null`). -/
def tokenCacheHit (now : Int) (st : TokenState) : Bool :=
  match st.accessTokenCache, st.tokenExpiryTime with
  | some t, some e => decide (t ≠ "") && decide (now < e)
  | _, _ => false

/-- `getAccessToken` from `src/server.js` lines 29–50: return the cached
token when the guard holds; otherwise perform the credential exchange
(outcome passed as `fetch`), and on success store the new token with
`tokenExpiryTime = Date.now() + 3600000` (a fixed hour — the gateway's
`expires_in` is never read).  On failure the error propagates and the cache
is left as it was. -/
def getAccessToken (now : Int) (fetch : Except Unit AuthResp) (st : TokenState) : TokenResult :=
  if tokenCacheHit now st then
    { result := .ok (st.accessTokenCache.getD ""), state := st, upstreamCalled := false }
  else
    match fetch with
    | .ok r =>
      { result := .ok r.access_token
        state := { accessTokenCache := some r.access_token
                   tokenExpiryTime := some (now + 3600000) }
        upstreamCalled := true }
    | .error _ => { result := .error (), state := st, upstreamCalled := true }

/-! ### Helper lemmas -/

lemma updateFirst_append_cons (p : LogEntry → Bool) (f : LogEntry → LogEntry)
    (pre post : List LogEntry) (e : LogEntry)
    (hpre : ∀ x ∈ pre, p x = false) (he : p e = true) :
    updateFirst p f (pre ++ e :: post) = pre ++ f e :: post := by
  induction pre with
  | nil => simp [updateFirst, he]
  | cons a rest ih =>
    have ha : p a = false := hpre a (by simp)
    simp only [List.cons_append, updateFirst, ha, Bool.false_eq_true, if_false, List.append_eq]
    rw [ih (fun x hx => hpre x (by simp [hx]))]

lemma any_append_cons_true (p : LogEntry → Bool) (pre post : List LogEntry) (e : LogEntry)
    (he : p e = true) : (pre ++ e :: post).any p = true := by
  simp [List.any_append, List.any_cons, he]

lemma any_updateFirst (p : LogEntry → Bool) (f : LogEntry → LogEntry)
    (hp : ∀ x, p (f x) = p x) (logs : List LogEntry) :
    (updateFirst p f logs).any p = logs.any p := by
  induction logs with
  | nil => rfl
  | cons e rest ih =>
    by_cases h : p e = true
    · simp [updateFirst, h, hp]
    · simp only [Bool.not_eq_true] at h
      simp [updateFirst, h, ih]

lemma updateFirst_idem (p : LogEntry → Bool) (f : LogEntry → LogEntry)
    (hp : ∀ x, p (f x) = p x) (hf : ∀ x, p x = true → f (f x) = f x)
    (logs : List LogEntry) :
    updateFirst p f (updateFirst p f logs) = updateFirst p f logs := by
  induction logs with
  | nil => rfl
  | cons e rest ih =>
    by_cases h : p e = true
    · simp [updateFirst, h, hp e, hf e h]
    · simp only [Bool.not_eq_true] at h
      simp [updateFirst, h, ih]

lemma reconcileEntry_checkoutId (now : Int) (cb : StkCallback) (e : LogEntry) :
    (reconcileEntry now cb e).checkoutId = e.checkoutId := rfl

lemma hasCheckoutId_reconcileEntry (cid : String) (now : Int) (cb : StkCallback) (e : LogEntry) :
    hasCheckoutId cid (reconcileEntry now cb e) = hasCheckoutId cid e := rfl

lemma reconcileEntry_idem (now : Int) (cb : StkCallback) (e : LogEntry) :
    reconcileEntry now cb (reconcileEntry now cb e) = reconcileEntry now cb e := by
  by_cases h : cb.resultCode = 0 <;> simp [reconcileEntry, h]

lemma reconcileLogs_idem_of_any (now : Int) (ts : String) (cb : StkCallback)
    (logs : List LogEntry) (h : logs.any (hasCheckoutId cb.checkoutRequestID) = true) :
    reconcileLogs now ts cb (reconcileLogs now ts cb logs) = reconcileLogs now ts cb logs := by
  have hp : ∀ x, hasCheckoutId cb.checkoutRequestID (reconcileEntry now cb x) =
      hasCheckoutId cb.checkoutRequestID x := fun x => rfl
  simp only [reconcileLogs, h, if_true,
    any_updateFirst (hasCheckoutId cb.checkoutRequestID) (reconcileEntry now cb) hp logs]
  exact updateFirst_idem _ _ hp (fun x _ => reconcileEntry_idem now cb x) logs

lemma mem_of_getLast?_eq {α : Type} (l : List α) (a : α) (h : l.getLast? = some a) : a ∈ l := by
  obtain ⟨hne, hx⟩ := List.mem_getLast?_eq_getLast (Option.mem_def.mpr h)
  rw [hx]
  exact List.getLast_mem hne

lemma not_stripped_of_digit (c : Char) (h : c.isDigit = true) : isStripped c = false := by
  simp only [Char.isDigit, Bool.and_eq_true, decide_eq_true_eq] at h
  obtain ⟨h1, h2⟩ := h
  have hsp : c ≠ ' ' := by rintro rfl; exact absurd h1 (by decide)
  have hta : c ≠ '\t' := by rintro rfl; exact absurd h1 (by decide)
  have hcr : c ≠ '\r' := by rintro rfl; exact absurd h1 (by decide)
  have hnl : c ≠ '\n' := by rintro rfl; exact absurd h1 (by decide)
  have hpl : c ≠ '+' := by rintro rfl; exact absurd h1 (by decide)
  have hmn : c ≠ '-' := by rintro rfl; exact absurd h1 (by decide)
  simp [isStripped, Char.isWhitespace, hsp, hta, hcr, hnl, hpl, hmn]

lemma cleanPhone_of_digits (s : String) (h : isDigits s.data = true) : cleanPhone s = s := by
  cases s with
  | mk d =>
    simp only [cleanPhone]
    congr 1
    apply List.filter_eq_self.mpr
    intro c hc
    have hcd : c.isDigit = true := by
      simp only [isDigits, List.all_eq_true] at h
      exact h c hc
    simp [not_stripped_of_digit c hcd]

lemma string_append_eq (s t : String) : s ++ t = String.mk (s.data ++ t.data) := by
  cases s; cases t; rfl

lemma normalizePhone_isSome (q : String) (hq : q ≠ "") :
    ∃ n, normalizePhone (some q) = some n ∧
      (n = cleanPhone q ∨ n = "0" ++ cleanPhone q) := by
  by_cases h1 : matches07 (cleanPhone q) = true
  · exact ⟨cleanPhone q, by simp [normalizePhone, hq, h1], Or.inl rfl⟩
  · by_cases h2 : matches7 (cleanPhone q) = true
    · exact ⟨"0" ++ cleanPhone q, by simp [normalizePhone, hq, h1, h2], Or.inr rfl⟩
    · by_cases h3 : matches2547 (cleanPhone q) = true
      · exact ⟨cleanPhone q, by simp [normalizePhone, hq, h1, h2, h3], Or.inl rfl⟩
      · exact ⟨cleanPhone q, by simp [normalizePhone, hq, h1, h2, h3], Or.inl rfl⟩

lemma append07_eq (rest : String) : "07" ++ rest = String.mk ('0' :: '7' :: rest.data) := by
  cases rest; rfl

lemma append7_eq (rest : String) : "7" ++ rest = String.mk ('7' :: rest.data) := by
  cases rest; rfl

lemma append2547_eq (rest : String) :
    "2547" ++ rest = String.mk ('2' :: '5' :: '4' :: '7' :: rest.data) := by
  cases rest; rfl

lemma zero_append_seven (rest : String) : "0" ++ ("7" ++ rest) = "07" ++ rest := by
  cases rest; rfl

lemma matches07_mk07 (l : List Char) :
    matches07 (String.mk ('0' :: '7' :: l)) = (l.length = 8 && isDigits l) := rfl

lemma matches07_mk7 (l : List Char) : matches07 (String.mk ('7' :: l)) = false := rfl

lemma matches7_mk7 (l : List Char) :
    matches7 (String.mk ('7' :: l)) = (l.length = 8 && isDigits l) := rfl

lemma matches07_mk2 (l : List Char) : matches07 (String.mk ('2' :: l)) = false := rfl

lemma matches7_mk2 (l : List Char) : matches7 (String.mk ('2' :: l)) = false := rfl

lemma matches2547_mk2547 (l : List Char) :
    matches2547 (String.mk ('2' :: '5' :: '4' :: '7' :: l)) = (l.length = 8 && isDigits l) := rfl

/-! ### Claim theorems -/

/-- C1 (counterexample): a record already in the terminal state `Success` is
not immutable — delivering a callback for the same correlation identifier
with a different outcome (`ResultCode = 1`) changes its state to `Failed`,
contradicting the claim that a terminal state is never changed by a
subsequent delivery other than an identical idempotent re-application. -/
theorem C1_counterexample :
    (reconcileLogs 0 "t2" ⟨"A", 1, some "Request cancelled by user", []⟩
        [{ phone := "0712345678", amount := some 20, status := "Success", timestamp := "t1",
           checkoutId := some "A", details := .noneD, mpesaReceipt := some "ABC123",
           resultDesc := some "ok", expiry := some 100 }]).map LogEntry.status
      = ["Failed"] := by decide

/-- C1 (amended): every callback delivery for an existing record overwrites
its state with the outcome of that delivery — `Success` iff `ResultCode = 0`,
`Failed` otherwise — regardless of the record's previous state (terminal
states included); re-delivering the identical callback at the same instant is
an idempotent no-op. -/
theorem C1_overwrite_and_idem (now : Int) (ts : String) (cb : StkCallback)
    (pre post : List LogEntry) (e : LogEntry)
    (hpre : ∀ x ∈ pre, x.checkoutId ≠ some cb.checkoutRequestID)
    (he : e.checkoutId = some cb.checkoutRequestID) :
    reconcileLogs now ts cb (pre ++ e :: post) = pre ++ reconcileEntry now cb e :: post ∧
    (reconcileEntry now cb e).status = (if cb.resultCode = 0 then "Success" else "Failed") ∧
    reconcileLogs now ts cb (pre ++ reconcileEntry now cb e :: post) =
      pre ++ reconcileEntry now cb e :: post := by
  set p := hasCheckoutId cb.checkoutRequestID with hpdef
  have hpe : p e = true := by simp [hpdef, hasCheckoutId, he]
  have hpf : p (reconcileEntry now cb e) = true := hpe
  have hppre : ∀ x ∈ pre, p x = false := by
    intro x hx
    simp [hpdef, hasCheckoutId, hpre x hx]
  have hany1 : (pre ++ e :: post).any p = true := any_append_cons_true p pre post e hpe
  have hany2 : (pre ++ reconcileEntry now cb e :: post).any p = true :=
    any_append_cons_true p pre post _ hpf
  refine ⟨?_, rfl, ?_⟩
  · simp only [reconcileLogs, hany1, if_true]
    exact updateFirst_append_cons p (reconcileEntry now cb) pre post e hppre hpe
  · simp only [reconcileLogs, hany2, if_true]
    rw [updateFirst_append_cons p (reconcileEntry now cb) pre post _ hppre hpf,
      reconcileEntry_idem]

theorem C1_overwrite_and_idem_witness :
    reconcileLogs 5 "t2" ⟨"A", 1, some "Request cancelled by user", []⟩
        ([{ phone := "0712345678", amount := some 20, status := "Pending", timestamp := "t1",
            checkoutId := some "A", details := .noneD, mpesaReceipt := none,
            resultDesc := none, expiry := none }]) =
      [reconcileEntry 5 ⟨"A", 1, some "Request cancelled by user", []⟩
        { phone := "0712345678", amount := some 20, status := "Pending", timestamp := "t1",
          checkoutId := some "A", details := .noneD, mpesaReceipt := none,
          resultDesc := none, expiry := none }] ∧
    (reconcileEntry 5 ⟨"A", 1, some "Request cancelled by user", []⟩
        { phone := "0712345678", amount := some 20, status := "Pending", timestamp := "t1",
          checkoutId := some "A", details := .noneD, mpesaReceipt := none,
          resultDesc := none, expiry := none }).status =
      (if (1 : Int) = 0 then "Success" else "Failed") ∧
    reconcileLogs 5 "t2" ⟨"A", 1, some "Request cancelled by user", []⟩
        [reconcileEntry 5 ⟨"A", 1, some "Request cancelled by user", []⟩
          { phone := "0712345678", amount := some 20, status := "Pending", timestamp := "t1",
            checkoutId := some "A", details := .noneD, mpesaReceipt := none,
            resultDesc := none, expiry := none }] =
      [reconcileEntry 5 ⟨"A", 1, some "Request cancelled by user", []⟩
        { phone := "0712345678", amount := some 20, status := "Pending", timestamp := "t1",
          checkoutId := some "A", details := .noneD, mpesaReceipt := none,
          resultDesc := none, expiry := none }] :=
  C1_overwrite_and_idem 5 "t2" ⟨"A", 1, some "Request cancelled by user", []⟩ [] []
    { phone := "0712345678", amount := some 20, status := "Pending", timestamp := "t1",
      checkoutId := some "A", details := .noneD, mpesaReceipt := none,
      resultDesc := none, expiry := none }
    (by intro x hx; cases hx) (by decide)

/-- C2 (counterexample): delivering the same callback for an unknown
correlation identifier twice does not leave the Ledger as after one delivery:
the first call appends an orphan whose `status` is the `ResultDesc` text,
the second call finds that orphan and rewrites its `status` to `Success`,
stamps `resultDesc` and `expiry`.  So reconcile is not idempotent for
identifiers with no pre-existing record. -/
theorem C2_counterexample :
    reconcileLogs 0 "t" ⟨"ZZZ999", 0, some "ok", []⟩
        (reconcileLogs 0 "t" ⟨"ZZZ999", 0, some "ok", []⟩ []) ≠
      reconcileLogs 0 "t" ⟨"ZZZ999", 0, some "ok", []⟩ [] := by decide

/-- C2 (amended): when a record with the callback's correlation identifier
already exists in the Ledger, delivering the identical callback twice (same
payload, same clock reading) leaves the Ledger in exactly the same state as
delivering it once, and the handler never raises an error (it is a total
function returning the acknowledged logs). -/
theorem C2_reconcile_idem (now : Int) (ts : String) (cb : StkCallback)
    (logs : List LogEntry)
    (h : ∃ e ∈ logs, e.checkoutId = some cb.checkoutRequestID) :
    reconcileLogs now ts cb (reconcileLogs now ts cb logs) = reconcileLogs now ts cb logs := by
  apply reconcileLogs_idem_of_any
  rw [List.any_eq_true]
  obtain ⟨e, he, hce⟩ := h
  exact ⟨e, he, by simp [hasCheckoutId, hce]⟩

theorem C2_reconcile_idem_witness :
    reconcileLogs 0 "t" ⟨"A", 0, some "ok", []⟩
        (reconcileLogs 0 "t" ⟨"A", 0, some "ok", []⟩
          [{ phone := "0712345678", amount := some 20, status := "Pending", timestamp := "t0",
             checkoutId := some "A", details := .noneD, mpesaReceipt := none,
             resultDesc := none, expiry := none }]) =
      reconcileLogs 0 "t" ⟨"A", 0, some "ok", []⟩
        [{ phone := "0712345678", amount := some 20, status := "Pending", timestamp := "t0",
           checkoutId := some "A", details := .noneD, mpesaReceipt := none,
           resultDesc := none, expiry := none }] :=
  C2_reconcile_idem 0 "t" ⟨"A", 0, some "ok", []⟩
    [{ phone := "0712345678", amount := some 20, status := "Pending", timestamp := "t0",
       checkoutId := some "A", details := .noneD, mpesaReceipt := none,
       resultDesc := none, expiry := none }]
    (by decide)

/-- C3 (counterexample): an orphan record created for an unknown correlation
identifier carries the callback's `ResultDesc` text in its `status` field —
here the literal gateway success phrase — which is neither `Success` nor
`Failed` (nor `Pending`), so the orphan is not created in a terminal state as
the claim requires. -/
theorem C3_counterexample :
    (reconcileLogs 0 "t"
        ⟨"ZZZ999", 0, some "The service request is processed successfully.", []⟩ []).map
      LogEntry.status = ["The service request is processed successfully."] ∧
    ("The service request is processed successfully." ≠ "Success" ∧
     "The service request is processed successfully." ≠ "Failed" ∧
     "The service request is processed successfully." ≠ "Pending") := by decide

/-- C3 (amended): a callback whose correlation identifier matches no existing
record is durably recorded as an orphan — afterwards retrievable by that same
identifier — with phone `'unknown'` and the raw callback preserved in
`details`; its `status` field holds the callback's `ResultDesc` text when that
is present and non-empty, and only falls back to the terminal constants
`Success`/`Failed` when it is not. -/
theorem C3_orphan_durable (now : Int) (ts : String) (cb : StkCallback)
    (logs : List LogEntry)
    (h : ∀ e ∈ logs, e.checkoutId ≠ some cb.checkoutRequestID) :
    findByCheckoutId cb.checkoutRequestID (reconcileLogs now ts cb logs) =
      some (orphanEntry ts cb) ∧
    (orphanEntry ts cb).details = RecDetails.callbackData cb ∧
    (orphanEntry ts cb).phone = "unknown" ∧
    (orphanEntry ts cb).status = (match presentStr cb.resultDesc with
      | some d => d
      | none => if cb.resultCode = 0 then "Success" else "Failed") := by
  have hfalse : ∀ e ∈ logs, hasCheckoutId cb.checkoutRequestID e = false := by
    intro e he
    simp [hasCheckoutId, h e he]
  have hany : logs.any (hasCheckoutId cb.checkoutRequestID) = false := by
    rw [← Bool.not_eq_true, List.any_eq_true]
    rintro ⟨e, he, hce⟩
    rw [hfalse e he] at hce
    cases hce
  refine ⟨?_, rfl, rfl, rfl⟩
  simp only [reconcileLogs, hany, Bool.false_eq_true, if_false, findByCheckoutId,
    List.find?_append]
  have hnone : logs.find? (hasCheckoutId cb.checkoutRequestID) = none :=
    List.find?_eq_none.mpr (fun e he => by simp [hfalse e he])
  rw [hnone]
  simp [List.find?, hasCheckoutId, orphanEntry]

theorem C3_orphan_durable_witness :
    findByCheckoutId "ZZZ999"
        (reconcileLogs 0 "t" ⟨"ZZZ999", 0, some "raw detail", []⟩ []) =
      some (orphanEntry "t" ⟨"ZZZ999", 0, some "raw detail", []⟩) ∧
    (orphanEntry "t" ⟨"ZZZ999", 0, some "raw detail", []⟩).details =
      RecDetails.callbackData ⟨"ZZZ999", 0, some "raw detail", []⟩ ∧
    (orphanEntry "t" ⟨"ZZZ999", 0, some "raw detail", []⟩).phone = "unknown" ∧
    (orphanEntry "t" ⟨"ZZZ999", 0, some "raw detail", []⟩).status =
      (match presentStr (some "raw detail") with
        | some d => d
        | none => if (0 : Int) = 0 then "Success" else "Failed") :=
  C3_orphan_durable 0 "t" ⟨"ZZZ999", 0, some "raw detail", []⟩ []
    (by intro e he; cases he)

/-- C4 (counterexample): `createPending` performs no duplicate check — pushing
a second pending record with the correlation identifier `A` already present
succeeds and leaves the Ledger with two records carrying the same identifier,
contradicting both the `DuplicateCorrelationId` failure and the uniqueness
invariant the claim states. -/
theorem C4_counterexample :
    (createPending "0722000000" 20 "t2" ⟨some "A"⟩
        (createPending "0712345678" 20 "t1" ⟨some "A"⟩ [])).length = 2 ∧
    ((createPending "0722000000" 20 "t2" ⟨some "A"⟩
        (createPending "0712345678" 20 "t1" ⟨some "A"⟩ [])).filter
      (hasCheckoutId "A")).length = 2 := by decide

/-- C4 (amended): `createPending` unconditionally appends one new `Pending`
record; it never fails (no `DuplicateCorrelationId` error exists in the code)
and does not enforce uniqueness — when a record with the same correlation
identifier is already present, the Ledger ends up with at least two records
carrying it. -/
theorem C4_unchecked_append (phone : String) (a : ℚ) (ts : String) (cid : String)
    (resp : GwResp) (logs : List LogEntry)
    (hresp : resp.checkoutRequestID = some cid)
    (h : ∃ x ∈ logs, x.checkoutId = some cid) :
    (createPending phone a ts resp logs).length = logs.length + 1 ∧
    2 ≤ ((createPending phone a ts resp logs).filter (hasCheckoutId cid)).length := by
  constructor
  · simp [createPending]
  · obtain ⟨x, hx, hxc⟩ := h
    have hmem : x ∈ logs.filter (hasCheckoutId cid) :=
      List.mem_filter.mpr ⟨hx, by simp [hasCheckoutId, hxc]⟩
    have hpos : 0 < (logs.filter (hasCheckoutId cid)).length :=
      List.length_pos_of_mem hmem
    simp only [createPending, List.filter_append]
    rw [List.length_append]
    have hone : (List.filter (hasCheckoutId cid)
        [{ phone := phone, amount := some a, status := "Pending", timestamp := ts,
           checkoutId := resp.checkoutRequestID, details := .gw resp,
           mpesaReceipt := none, resultDesc := none, expiry := none }]).length = 1 := by
      simp [List.filter, hasCheckoutId, hresp]
    omega

theorem C4_unchecked_append_witness :
    (createPending "0722000000" 20 "t2" ⟨some "A"⟩
        [{ phone := "0712345678", amount := some 20, status := "Pending", timestamp := "t1",
           checkoutId := some "A", details := .noneD, mpesaReceipt := none,
           resultDesc := none, expiry := none }]).length =
      [({ phone := "0712345678", amount := some 20, status := "Pending", timestamp := "t1",
          checkoutId := some "A", details := .noneD, mpesaReceipt := none,
          resultDesc := none, expiry := none } : LogEntry)].length + 1 ∧
    2 ≤ ((createPending "0722000000" 20 "t2" ⟨some "A"⟩
        [{ phone := "0712345678", amount := some 20, status := "Pending", timestamp := "t1",
           checkoutId := some "A", details := .noneD, mpesaReceipt := none,
           resultDesc := none, expiry := none }]).filter (hasCheckoutId "A")).length :=
  C4_unchecked_append "0722000000" 20 "t2" "A" ⟨some "A"⟩
    [{ phone := "0712345678", amount := some 20, status := "Pending", timestamp := "t1",
       checkoutId := some "A", details := .noneD, mpesaReceipt := none,
       resultDesc := none, expiry := none }]
    rfl (by decide)

/-- C5 (confirmed): when the gateway submission call fails (thrown error —
network failure, timeout, or non-2xx response, with or without a response
status), the `/pay` handler leaves the `logs` array exactly as it was (no
pending record is created) and the caller never receives the success
response. -/
theorem C5_failed_submission_no_trace (rawPhone : Option String) (amount : JsVal)
    (tokenResult : Except (Option Nat) String) (e : Option Nat) (ts : String)
    (logs : List LogEntry) (cid : Option String) :
    (payHandler rawPhone amount tokenResult (.error e) ts logs).2 = logs ∧
    (payHandler rawPhone amount tokenResult (.error e) ts logs).1 ≠ PayResp.ok cid := by
  simp only [payHandler]
  rcases hva : validateAmount amount with err | a
  · rcases err <;> simp
  · rcases hnp : normalizePhone (some (rawPhone.getD "")) with _ | ph
    · simp
    · by_cases hph : ph = ""
      · simp [hph]
      · rcases tokenResult with te | tok <;> simp [hph]

/-- C6 (counterexample): `normalizePhone` does not map the three accepted
shapes of the same subscriber to one identical canonical value — the national
form `0712345678` is kept as is while the international form `254712345678`
is also kept as is, so the two canonical outputs differ; and an input matching
none of the shapes (`abc`) is returned (stripped) instead of failing with
`InvalidPhone`. -/
theorem C6_counterexample :
    normalizePhone (some "0712345678") = some "0712345678" ∧
    normalizePhone (some "254712345678") = some "254712345678" ∧
    normalizePhone (some "0712345678") ≠ normalizePhone (some "254712345678") ∧
    normalizePhone (some "abc") = some "abc" := by decide

/-- C6 (amended): after stripping, `normalizePhone` maps the national shape
(`0` + `7` + 8 digits) to itself and the bare subscriber shape (`7` + 8
digits) to the same national form, but keeps the international shape
(`2547` + 8 digits) in international form — two distinct canonical outputs
for the same subscriber; every non-empty input matching none of the three
shapes is returned with whitespace, plus and hyphen stripped rather than
rejected. -/
theorem C6_normalize_shapes (rest s : String)
    (h8 : rest.length = 8) (hd : isDigits rest.data = true) (hs : s ≠ "")
    (h1 : matches07 (cleanPhone s) = false) (h2 : matches7 (cleanPhone s) = false)
    (h3 : matches2547 (cleanPhone s) = false) :
    normalizePhone (some ("07" ++ rest)) = some ("07" ++ rest) ∧
    normalizePhone (some ("7" ++ rest)) = some ("07" ++ rest) ∧
    normalizePhone (some ("2547" ++ rest)) = some ("2547" ++ rest) ∧
    normalizePhone (some s) = some (cleanPhone s) := by
  have h8l : rest.data.length = 8 := h8
  have hd0 : Char.isDigit '0' = true := by decide
  have hd2 : Char.isDigit '2' = true := by decide
  have hd4 : Char.isDigit '4' = true := by decide
  have hd5 : Char.isDigit '5' = true := by decide
  have hd7 : Char.isDigit '7' = true := by decide
  refine ⟨?_, ?_, ?_, ?_⟩
  · have hall : isDigits ("07" ++ rest).data = true := by
      rw [append07_eq]
      simp only [isDigits, List.all_cons, Bool.and_eq_true]
      exact ⟨hd0, hd7, hd⟩
    have hne : ("07" ++ rest) ≠ "" := by
      rw [append07_eq]
      intro hcon
      have h2 := congrArg String.data hcon
      simp at h2
    have hclean : cleanPhone ("07" ++ rest) = "07" ++ rest := cleanPhone_of_digits _ hall
    have hm : matches07 ("07" ++ rest) = true := by
      rw [append07_eq, matches07_mk07]
      simp [h8l, hd]
    simp [normalizePhone, hne, hclean, hm]
  · have hall : isDigits ("7" ++ rest).data = true := by
      rw [append7_eq]
      simp only [isDigits, List.all_cons, Bool.and_eq_true]
      exact ⟨hd7, hd⟩
    have hne : ("7" ++ rest) ≠ "" := by
      rw [append7_eq]
      intro hcon
      have h2 := congrArg String.data hcon
      simp at h2
    have hclean : cleanPhone ("7" ++ rest) = "7" ++ rest := cleanPhone_of_digits _ hall
    have hm0 : matches07 ("7" ++ rest) = false := by
      rw [append7_eq, matches07_mk7]
    have hm : matches7 ("7" ++ rest) = true := by
      rw [append7_eq, matches7_mk7]
      simp [h8l, hd]
    have hz : "0" ++ ("7" ++ rest) = "07" ++ rest := zero_append_seven rest
    simp [normalizePhone, hne, hclean, hm0, hm, hz]
  · have hall : isDigits ("2547" ++ rest).data = true := by
      rw [append2547_eq]
      simp only [isDigits, List.all_cons, Bool.and_eq_true]
      exact ⟨hd2, hd5, hd4, hd7, hd⟩
    have hne : ("2547" ++ rest) ≠ "" := by
      rw [append2547_eq]
      intro hcon
      have h2 := congrArg String.data hcon
      simp at h2
    have hclean : cleanPhone ("2547" ++ rest) = "2547" ++ rest := cleanPhone_of_digits _ hall
    have hm0 : matches07 ("2547" ++ rest) = false := by
      rw [append2547_eq, matches07_mk2]
    have hm7 : matches7 ("2547" ++ rest) = false := by
      rw [append2547_eq, matches7_mk2]
    have hm : matches2547 ("2547" ++ rest) = true := by
      rw [append2547_eq, matches2547_mk2547]
      simp [h8l, hd]
    simp [normalizePhone, hne, hclean, hm0, hm7, hm]
  · simp [normalizePhone, hs, h1, h2, h3]

theorem C6_normalize_shapes_witness :
    normalizePhone (some ("07" ++ "12345678")) = some ("07" ++ "12345678") ∧
    normalizePhone (some ("7" ++ "12345678")) = some ("07" ++ "12345678") ∧
    normalizePhone (some ("2547" ++ "12345678")) = some ("2547" ++ "12345678") ∧
    normalizePhone (some "abc") = some (cleanPhone "abc") :=
  C6_normalize_shapes "12345678" "abc" (by decide) (by decide) (by decide)
    (by decide) (by decide) (by decide)

/-- C7 (confirmed): in the bounded caller-supplied-amount mode (`/pay` with
`MAX_AMOUNT = 30`), amount validation fails with the amount-exceeds-limit
error for every amount strictly greater than the ceiling, and succeeds,
returning the amount unchanged, for every amount strictly positive and at
most the ceiling. -/
theorem C7_amount_bounds (a b : ℚ) (ha : MAX_AMOUNT < a) (hb1 : 0 < b)
    (hb2 : b ≤ MAX_AMOUNT) :
    validateAmount (.num a) = .error .amountExceedsLimit ∧
    validateAmount (.num b) = .ok b := by
  constructor
  · simp only [validateAmount]
    rw [if_neg (by linarith : ¬ a ≤ 0), if_pos (by exact ha)]
  · simp only [validateAmount]
    rw [if_neg (by linarith : ¬ b ≤ 0), if_neg (not_lt.mpr hb2)]

theorem C7_amount_bounds_witness :
    validateAmount (.num 31) = .error .amountExceedsLimit ∧
    validateAmount (.num 20) = .ok 20 :=
  C7_amount_bounds 31 20 (by norm_num [MAX_AMOUNT]) (by norm_num)
    (by norm_num [MAX_AMOUNT])

/-- C8 (counterexample): on refresh the code stores
`tokenExpiryTime = Date.now() + 3600000` — exactly one hour, ignoring the
gateway's stated validity (`expires_in`).  With the gateway stating the
nominal one-hour window (3600 s), the stored expiry instant is not strictly
earlier than the end of that window, refuting the conservative-expiry part of
the claim. -/
theorem C8_counterexample :
    (getAccessToken 0 (.ok ⟨"tok", 3600⟩) ⟨none, none⟩).state.tokenExpiryTime =
      some 3600000 ∧
    ¬ ((3600000 : Int) < 0 + 3600 * 1000) := by decide

/-- C8 (amended): starting from the empty cache, a first `acquire` at `now1`
performs exactly one upstream exchange and stores the token with the fixed
expiry `now1 + 3600000` (one hour — not derived from, and not strictly
earlier than, the gateway's stated validity); any second call before that
instant returns the bit-identical token with no upstream call and an
unchanged cache; a call at or after that instant performs exactly one fresh
exchange, again stamping a fixed one-hour expiry. -/
theorem C8_token_cache (now1 now2 now3 : Int) (r r2 : AuthResp)
    (f2 : Except Unit AuthResp)
    (hr : r.access_token ≠ "")
    (h2 : now2 < now1 + 3600000)
    (h3 : now1 + 3600000 ≤ now3) :
    getAccessToken now1 (.ok r) ⟨none, none⟩ =
      { result := .ok r.access_token
        state := { accessTokenCache := some r.access_token
                   tokenExpiryTime := some (now1 + 3600000) }
        upstreamCalled := true } ∧
    getAccessToken now2 f2
        ⟨some r.access_token, some (now1 + 3600000)⟩ =
      { result := .ok r.access_token
        state := ⟨some r.access_token, some (now1 + 3600000)⟩
        upstreamCalled := false } ∧
    getAccessToken now3 (.ok r2)
        ⟨some r.access_token, some (now1 + 3600000)⟩ =
      { result := .ok r2.access_token
        state := { accessTokenCache := some r2.access_token
                   tokenExpiryTime := some (now3 + 3600000) }
        upstreamCalled := true } := by
  refine ⟨?_, ?_, ?_⟩
  · simp [getAccessToken, tokenCacheHit]
  · simp [getAccessToken, tokenCacheHit, hr, h2]
  · simp [getAccessToken, tokenCacheHit, not_lt.mpr h3]

theorem C8_token_cache_witness :
    getAccessToken 0 (.ok ⟨"tokA", 3600⟩) ⟨none, none⟩ =
      { result := .ok "tokA"
        state := { accessTokenCache := some "tokA", tokenExpiryTime := some (0 + 3600000) }
        upstreamCalled := true } ∧
    getAccessToken 10 (.error ()) ⟨some "tokA", some (0 + 3600000)⟩ =
      { result := .ok "tokA"
        state := ⟨some "tokA", some (0 + 3600000)⟩
        upstreamCalled := false } ∧
    getAccessToken 3600000 (.ok ⟨"tokB", 3600⟩) ⟨some "tokA", some (0 + 3600000)⟩ =
      { result := .ok "tokB"
        state := { accessTokenCache := some "tokB", tokenExpiryTime := some (3600000 + 3600000) }
        upstreamCalled := true } :=
  C8_token_cache 0 10 3600000 ⟨"tokA", 3600⟩ ⟨"tokB", 3600⟩ (.error ())
    (by decide) (by decide) (by decide)

/-- C9 (counterexample): reconciling a `Failed` outcome whose callback
happens to carry an `MpesaReceiptNumber` metadata item leaves the record in
state `Failed` **with** a non-empty receipt reference — a reachable Ledger
state (created by `createPending` then one callback delivery) in which a
receipt is present while the state is not `Success`. -/
theorem C9_counterexample :
    (reconcileLogs 0 "t2" ⟨"A", 1, some "x", [⟨"MpesaReceiptNumber", some "ABC123"⟩]⟩
        (createPending "0712345678" 20 "t1" ⟨some "A"⟩ [])).map
      (fun e => (e.status, e.mpesaReceipt)) = [("Failed", some "ABC123")] := by decide

/-- C9 (amended): reconciliation sets the record's `mpesaReceipt` to whatever
receipt value the callback metadata carries, irrespective of the outcome; the
state is `Success` iff `ResultCode = 0`.  A `Failed` reconciliation leaves no
receipt only when the callback carries no (non-empty) `MpesaReceiptNumber`
item. -/
theorem C9_receipt_tracks_callback (now : Int) (cb : StkCallback) (e : LogEntry) :
    (reconcileEntry now cb e).mpesaReceipt = extractReceipt cb.items ∧
    (reconcileEntry now cb e).status =
      (if cb.resultCode = 0 then "Success" else "Failed") := ⟨rfl, rfl⟩

/-- C10 (counterexample): the phone-based status query of
`src/unnamed/part_001` normalizes the query before filtering, and the
normalizer's fallback strips hyphens — so the phone value `un-known`, which is
different from the literal `unknown`, is normalized to `unknown` and the
query returns an orphan record. -/
theorem C10_counterexample :
    "un-known" ≠ "unknown" ∧
    statusByPhone (some "un-known")
        (reconcileLogs 0 "t" ⟨"ZZZ999", 1, some "detail", []⟩ []) =
      StatusResp.found (orphanEntry "t" ⟨"ZZZ999", 1, some "detail", []⟩) ∧
    (orphanEntry "t" ⟨"ZZZ999", 1, some "detail", []⟩).phone = "unknown" := by decide

/-- C10 (amended): every orphan record is stored with phone `'unknown'`, and
the phone-based status and listing queries never return a record whose phone
field is `'unknown'` — hence never an orphan — for every query value that is
non-empty and whose **normalized** form differs from `'unknown'` (the query
is normalized before filtering, so distinct raw values such as `un-known`
can still reach the orphans). -/
theorem C10_orphan_unknown_phone (ts : String) (cb : StkCallback) (q : String)
    (logs : List LogEntry) (e : LogEntry)
    (hq0 : q ≠ "") (hq : normalizePhone (some q) ≠ some "unknown") :
    (orphanEntry ts cb).phone = "unknown" ∧
    (statusByPhone (some q) logs = StatusResp.found e → e.phone ≠ "unknown") ∧
    (e ∈ listByPhone (some q) logs → e.phone ≠ "unknown") := by
  obtain ⟨n, hn, -⟩ := normalizePhone_isSome q hq0
  have hnu : n ≠ "unknown" := by
    rintro rfl
    exact hq hn
  refine ⟨rfl, ?_, ?_⟩
  · intro hfound
    simp only [statusByPhone, hq0, if_neg, hn] at hfound
    by_cases hne : n = ""
    · rw [if_pos hne] at hfound
      cases hfound
    · rw [if_neg hne] at hfound
      rcases hlast : (logs.filter (fun l => decide (l.phone = n))).getLast? with _ | last
      · rw [hlast] at hfound
        cases hfound
      · rw [hlast] at hfound
        cases hfound
        have hmem := mem_of_getLast?_eq _ _ hlast
        have := List.mem_filter.mp hmem
        rw [decide_eq_true_eq] at this
        rw [this.2]
        exact hnu
  · intro hmem
    simp only [listByPhone, hq0, if_neg, hn] at hmem
    have := List.mem_filter.mp hmem
    rw [decide_eq_true_eq] at this
    rw [this.2]
    exact hnu

theorem C10_orphan_unknown_phone_witness :
    (orphanEntry "t" ⟨"ZZZ999", 1, some "detail", []⟩).phone = "unknown" ∧
    (statusByPhone (some "0712345678")
        [orphanEntry "t" ⟨"ZZZ999", 1, some "detail", []⟩,
         { phone := "0712345678", amount := some 20, status := "Pending", timestamp := "t1",
           checkoutId := some "B", details := .noneD, mpesaReceipt := none,
           resultDesc := none, expiry := none }] =
      StatusResp.found
        { phone := "0712345678", amount := some 20, status := "Pending", timestamp := "t1",
          checkoutId := some "B", details := .noneD, mpesaReceipt := none,
          resultDesc := none, expiry := none } →
      ({ phone := "0712345678", amount := some 20, status := "Pending", timestamp := "t1",
         checkoutId := some "B", details := .noneD, mpesaReceipt := none,
         resultDesc := none, expiry := none } : LogEntry).phone ≠ "unknown") ∧
    (({ phone := "0712345678", amount := some 20, status := "Pending", timestamp := "t1",
        checkoutId := some "B", details := .noneD, mpesaReceipt := none,
        resultDesc := none, expiry := none } : LogEntry) ∈
        listByPhone (some "0712345678")
          [orphanEntry "t" ⟨"ZZZ999", 1, some "detail", []⟩,
           { phone := "0712345678", amount := some 20, status := "Pending", timestamp := "t1",
             checkoutId := some "B", details := .noneD, mpesaReceipt := none,
             resultDesc := none, expiry := none }] →
      ({ phone := "0712345678", amount := some 20, status := "Pending", timestamp := "t1",
         checkoutId := some "B", details := .noneD, mpesaReceipt := none,
         resultDesc := none, expiry := none } : LogEntry).phone ≠ "unknown") :=
  C10_orphan_unknown_phone "t" ⟨"ZZZ999", 1, some "detail", []⟩ "0712345678"
    [orphanEntry "t" ⟨"ZZZ999", 1, some "detail", []⟩,
     { phone := "0712345678", amount := some 20, status := "Pending", timestamp := "t1",
       checkoutId := some "B", details := .noneD, mpesaReceipt := none,
       resultDesc := none, expiry := none }]
    { phone := "0712345678", amount := some 20, status := "Pending", timestamp := "t1",
      checkoutId := some "B", details := .noneD, mpesaReceipt := none,
      resultDesc := none, expiry := none }
    (by decide) (by decide)
